import Mathlib

/-!
Shallow embedding of the connection-resilience core of the p2pquake client:
the exponential-backoff reconnection manager and time-windowed deduplicator
(src/utils/reconnect.ts, src/utils/deduplicator.ts), the structural message
validator (src/utils/validator.ts, src/types/constants.ts) and the lifecycle
and dispatch logic of the WebSocket client (src/clients/ws.ts).

JavaScript numbers are modelled as rationals (ℚ); the special value
Infinity, legal only for the maxAttempts configuration field, is modelled
by ⊤ in WithTop ℚ.  Wall-clock timestamps (Date.now()) are modelled as
integers (ℤ, milliseconds).  The Map backing the deduplicator is modelled
as a function String → Option ℤ.  Timers are modelled by their observable
state: a pending setTimeout is an Option ℚ holding the scheduled delay, a
running setInterval is a Bool.
-/

namespace P2PQuake

/-! ## ReconnectManager (src/utils/reconnect.ts) -/

/-- Reconnection configuration (interface ReconnectConfig).  maxAttempts
may be Infinity (⊤) for unlimited attempts. -/
structure ReconnectConfig where
  initialDelay : ℚ
  maxDelay : ℚ
  multiplier : ℚ
  maxAttempts : WithTop ℚ

/-- DEFAULT_RECONNECT_CONFIG from src/types/constants.ts:
initialDelay 1000, maxDelay 30000, multiplier 2, maxAttempts Infinity. -/
def DEFAULT_RECONNECT_CONFIG : ReconnectConfig :=
  { initialDelay := 1000, maxDelay := 30000, multiplier := 2, maxAttempts := ⊤ }

/-- State of a ReconnectManager: the stored config, the private attempt
counter, and the pending reconnect timer (the delay it was armed with),
none when no timer is pending. -/
structure ReconnectManager where
  config : ReconnectConfig
  attempts : ℕ
  timeout : Option ℚ

/-- The ReconnectManager constructor: attempts = 0, no pending timer. -/
def ReconnectManager.mk0 (cfg : ReconnectConfig) : ReconnectManager :=
  { config := cfg, attempts := 0, timeout := none }

/-- getNextDelay(): min(initialDelay * multiplier ^ attempts, maxDelay).
A pure read of the state - it does not mutate the attempt counter. -/
def ReconnectManager.getNextDelay (m : ReconnectManager) : ℚ :=
  min (m.config.initialDelay * m.config.multiplier ^ m.attempts) m.config.maxDelay

/-- shouldReconnect(): attempts < maxAttempts, where maxAttempts may be
Infinity (⊤), in which case the comparison is always true. -/
def ReconnectManager.shouldReconnect (m : ReconnectManager) : Bool :=
  decide (((m.attempts : ℚ) : WithTop ℚ) < m.config.maxAttempts)

/-- cancel(): clearTimeout on the pending timer, if any. -/
def ReconnectManager.cancel (m : ReconnectManager) : ReconnectManager :=
  { m with timeout := none }

/-- scheduleReconnect(callback): cancel any pending timer; if
shouldReconnect() fails, stop; otherwise increment the attempt counter,
compute the delay for the incremented counter and arm the timer with it
(setTimeout fires the callback once after that delay; the timer is
unref'd so it does not keep the process alive). -/
def ReconnectManager.scheduleReconnect (m : ReconnectManager) : ReconnectManager :=
  let m1 := m.cancel
  if m1.shouldReconnect then
    let m2 := { m1 with attempts := m1.attempts + 1 }
    { m2 with timeout := some m2.getNextDelay }
  else
    m1

/-- reset(): attempt counter back to 0 and cancel any pending timer. -/
def ReconnectManager.reset (m : ReconnectManager) : ReconnectManager :=
  { m with attempts := 0, timeout := none }

/-- attemptCount getter. -/
def ReconnectManager.attemptCount (m : ReconnectManager) : ℕ :=
  m.attempts

/-! ## Deduplicator (src/utils/deduplicator.ts) -/

/-- State of a Deduplicator: the dedup window in milliseconds, the Map
from event id to the timestamp it was recorded, and whether the periodic
cleanup interval is running. -/
structure Deduplicator where
  windowMs : ℤ
  seenIds : String → Option ℤ
  cleanupActive : Bool

/-- The Deduplicator constructor: empty map, cleanup interval started. -/
def Deduplicator.mk0 (w : ℤ) : Deduplicator :=
  { windowMs := w, seenIds := fun _ => none, cleanupActive := true }

/-- isDuplicate(id) at wall-clock time now: if the id has a stored
timestamp still within the window, report a duplicate and leave the map
untouched; otherwise (absent or expired entry) record now against the id
and report not-a-duplicate.  In the source the expired case is a delete
followed by a set, whose net effect is the single update modelled here. -/
def Deduplicator.isDuplicate (d : Deduplicator) (id : String) (now : ℤ) :
    Bool × Deduplicator :=
  match d.seenIds id with
  | some timestamp =>
    if now - timestamp < d.windowMs then
      (true, d)
    else
      (false, { d with seenIds := Function.update d.seenIds id (some now) })
  | none => (false, { d with seenIds := Function.update d.seenIds id (some now) })

/-- clear(): remove every tracked id. -/
def Deduplicator.clear (d : Deduplicator) : Deduplicator :=
  { d with seenIds := fun _ => none }

/-- destroy(): stop the cleanup interval, then clear(). -/
def Deduplicator.destroy (d : Deduplicator) : Deduplicator :=
  Deduplicator.clear { d with cleanupActive := false }

/-- cleanup(): the periodic sweep, removing ids whose timestamp is older
than now - windowMs. -/
def Deduplicator.cleanup (d : Deduplicator) (now : ℤ) : Deduplicator :=
  { d with
    seenIds := fun id =>
      match d.seenIds id with
      | some t => if t < now - d.windowMs then none else some t
      | none => none }

/-- Run a sequence of isDuplicate calls, each a pair of id and wall-clock
time, returning the list of results and the final state. -/
def Deduplicator.runCalls (d : Deduplicator) :
    List (String × ℤ) → List Bool × Deduplicator
  | [] => ([], d)
  | c :: rest =>
    let r := d.isDuplicate c.1 c.2
    let q := Deduplicator.runCalls r.2 rest
    (r.1 :: q.1, q.2)

/-- From a history of calls paired with the result each one returned, the
time of the call for this id that most recently returned false (none when
no call for the id returned false). -/
def lastFalseTime : List ((String × ℤ) × Bool) → String → Option ℤ
  | [], _ => none
  | e :: rest, id =>
    match lastFalseTime rest id with
    | some t => some t
    | none => if e.1.1 = id ∧ e.2 = false then some e.1.2 else none

/-! ## Validation (src/utils/validator.ts, src/types/constants.ts) -/

/-- A decoded JSON field value, as far as the structural validator
distinguishes: a string, a number, or anything else. -/
inductive JVal
  | jstr (s : String)
  | jnum (n : ℚ)
  | jother
deriving DecidableEq

/-- A decoded inbound frame, restricted to the fields the dispatch
pipeline inspects: id, the legacy alternate identifier field (spelled
_id on the wire), code and time.  none means the field is absent. -/
structure RawMessage where
  id : Option JVal
  altId : Option JVal
  code : Option JVal
  time : Option JVal
deriving DecidableEq

/-- A field is present with string type. -/
def isStringField : Option JVal → Bool
  | some (JVal.jstr _) => true
  | _ => false

/-- A field is present with numeric type. -/
def isNumberField : Option JVal → Bool
  | some (JVal.jnum _) => true
  | _ => false

/-- The string content of a field, defaulting to the empty string; used
only after validation has established the field is a string. -/
def getStr : Option JVal → String
  | some (JVal.jstr s) => s
  | _ => ""

/-- The numeric content of a field, defaulting to 0; used only after
validation has established the field is a number. -/
def getNum : Option JVal → ℚ
  | some (JVal.jnum n) => n
  | _ => 0

/-- EVENT_CODES from src/types/constants.ts. -/
def EVENT_CODES : List ℚ := [551, 552, 554, 555, 556, 561, 9611]

/-- isBasicData: the record has a string id, a numeric code and a string
time. -/
def isBasicData (m : RawMessage) : Bool :=
  isStringField m.id && isNumberField m.code && isStringField m.time

/-- isValidEventCode: the code field is a number in EVENT_CODES. -/
def isValidEventCode : Option JVal → Bool
  | some (JVal.jnum n) => decide (n ∈ EVENT_CODES)
  | _ => false

/-- isP2PQuakeEvent: isBasicData and a valid event code. -/
def isP2PQuakeEvent (m : RawMessage) : Bool :=
  isBasicData m && isValidEventCode m.code

/-- The normalization step of handleMessage: when the record carries a
string _id and no id, move it to id. -/
def normalizeId (m : RawMessage) : RawMessage :=
  match m.altId, m.id with
  | some (JVal.jstr s), none =>
    { m with id := some (JVal.jstr s), altId := none }
  | _, _ => m

/-! ## P2PQuakeWebSocketClient (src/clients/ws.ts) -/

/-- The resolved client options that the lifecycle and dispatch logic
reads (url and transport passthrough options are opaque to it). -/
structure ResolvedOptions where
  autoReconnect : Bool
  reconnect : ReconnectConfig
  eventCodes : List ℚ
  deduplicationWindow : ℤ

/-- The default resolved options of the client constructor. -/
def defaultOptions : ResolvedOptions :=
  { autoReconnect := true
    reconnect := DEFAULT_RECONNECT_CONFIG
    eventCodes := EVENT_CODES
    deduplicationWindow := 60000 }

/-- Observable state of a P2PQuakeWebSocketClient.  ws models the socket
reference: none when null, some b when a socket exists with b true
exactly if readyState = OPEN.  pendingConnect models the pair of one-shot
connect/error listeners a connect() call registers, together with its
unsettled promise.  attemptsStarted counts setupWebSocket calls (how many
transport attempts were ever started). -/
structure ClientState where
  options : ResolvedOptions
  ws : Option Bool
  isConnecting : Bool
  intentionalDisconnect : Bool
  pendingConnect : Bool
  attemptsStarted : ℕ
  rm : ReconnectManager
  dedup : Deduplicator

/-- The client constructor. -/
def ClientState.mk0 (opts : ResolvedOptions) : ClientState :=
  { options := opts
    ws := none
    isConnecting := false
    intentionalDisconnect := false
    pendingConnect := false
    attemptsStarted := 0
    rm := ReconnectManager.mk0 opts.reconnect
    dedup := Deduplicator.mk0 opts.deduplicationWindow }

/-- A freshly constructed client with the default options. -/
def initialClient : ClientState :=
  ClientState.mk0 defaultOptions

/-- isConnected getter: the socket exists and its readyState is OPEN. -/
def ClientState.isConnected (s : ClientState) : Bool :=
  s.ws == some true

/-- How a connect() call starts: resolve at once (already open), reject
at once (an attempt is already in progress), or start a transport
attempt whose promise the first open or error notification settles. -/
inductive ConnectStart
  | resolvedImmediately
  | rejectedInProgress
  | attemptStarted
deriving DecidableEq

/-- connect(): resolve immediately when already connected; reject with
the connection-already-in-progress ConnectionError when a connect is in
flight; otherwise mark connecting, clear the user-requested-disconnect
flag, create the socket (setupWebSocket) and register the one-shot
connect/error listeners that will settle the promise. -/
def ClientState.connect (s : ClientState) : ConnectStart × ClientState :=
  if s.isConnected then
    (ConnectStart.resolvedImmediately, s)
  else if s.isConnecting then
    (ConnectStart.rejectedInProgress, s)
  else
    (ConnectStart.attemptStarted,
      { s with
        isConnecting := true
        intentionalDisconnect := false
        ws := some false
        pendingConnect := true
        attemptsStarted := s.attemptsStarted + 1 })

/-- How a pending connect() promise settles. -/
inductive Settle
  | resolved
  | rejected
deriving DecidableEq

/-- The effect of emitting connect or error on the one-shot listeners of
a pending connect(): if a connect is pending, settle it, deregister both
listeners (the cleanup closure) and clear isConnecting; otherwise
nothing. -/
def ClientState.fireOnce (s : ClientState) (res : Settle) :
    Option Settle × ClientState :=
  if s.pendingConnect then
    (some res, { s with pendingConnect := false, isConnecting := false })
  else
    (none, s)

/-- handleOpen(): the socket reaches readyState OPEN, the reconnect
manager is reset, and the connect event is emitted, settling a pending
connect() with success. -/
def ClientState.handleOpen (s : ClientState) : Option Settle × ClientState :=
  ClientState.fireOnce
    { s with ws := s.ws.map (fun _ => true), rm := s.rm.reset }
    Settle.resolved

/-- handleError(): the error event is emitted, rejecting a pending
connect() with a ConnectionError. -/
def ClientState.handleError (s : ClientState) : Option Settle × ClientState :=
  ClientState.fireOnce s Settle.rejected

/-- A transport notification relevant to a pending connect(): the open
event or an error event. -/
inductive ConnNotice
  | openNotice
  | errorNotice

/-- Deliver one transport notification. -/
def ClientState.notify (s : ClientState) : ConnNotice → Option Settle × ClientState
  | ConnNotice.openNotice => s.handleOpen
  | ConnNotice.errorNotice => s.handleError

/-- Deliver a sequence of transport notifications, collecting every
settlement of the connect() promise that occurs. -/
def ClientState.runNotices (s : ClientState) :
    List ConnNotice → List Settle × ClientState
  | [] => ([], s)
  | n :: rest =>
    let r := s.notify n
    let q := ClientState.runNotices r.2 rest
    (r.1.toList ++ q.1, q.2)

/-- disconnect(): set the user-requested flag, cancel any pending
reconnect timer, close and release the socket. -/
def ClientState.disconnect (s : ClientState) : ClientState :=
  { s with intentionalDisconnect := true, rm := s.rm.cancel, ws := none }

/-- destroy(): disconnect(), stop the deduplicator (sweep timer stopped,
entries cleared), cancel the reconnect timer, and remove all listeners. -/
def ClientState.destroy (s : ClientState) : ClientState :=
  let s1 := s.disconnect
  { s1 with dedup := s1.dedup.destroy, rm := s1.rm.cancel }

/-- The callback closed over by attemptReconnect and armed on the
reconnect timer: when the timer fires it re-checks the user-requested
flag and only then calls connect(); the first component reports which
connect() outcome was started, none when the guard suppressed the call. -/
def ClientState.reconnectTimerCallback (s : ClientState) :
    Option ConnectStart × ClientState :=
  if s.intentionalDisconnect then
    (none, s)
  else
    let r := s.connect
    (some r.1, r.2)

/-- A signal emitted while reacting to an unintentional close. -/
inductive RcEmit
  | errorExhausted (attemptCount : ℕ)
  | reconnecting (attempt : ℕ) (delayMs : ℚ)
deriving DecidableEq

/-- attemptReconnect(): when attempts are exhausted emit a terminal
ReconnectError; otherwise emit the reconnecting signal carrying
attemptCount + 1 and the delay read via getNextDelay() before
scheduleReconnect() increments the counter, then schedule the
reconnect. -/
def ClientState.attemptReconnect (s : ClientState) : List RcEmit × ClientState :=
  if s.rm.shouldReconnect = false then
    ([RcEmit.errorExhausted s.rm.attemptCount], s)
  else
    let delay := s.rm.getNextDelay
    let attempt := s.rm.attemptCount + 1
    ([RcEmit.reconnecting attempt delay], { s with rm := s.rm.scheduleReconnect })

/-- A reconnect configuration with maxAttempts 5 (the worked example of
the spec). -/
def cfgFive : ReconnectConfig :=
  { DEFAULT_RECONNECT_CONFIG with maxAttempts := ((5 : ℚ) : WithTop ℚ) }

/-- A degenerate but accepted reconnect configuration with initialDelay
0 (the client never validates the reconnect options it is given). -/
def cfgZero : ReconnectConfig :=
  { initialDelay := 0, maxDelay := 30000, multiplier := 2, maxAttempts := ⊤ }

/-- A freshly constructed client configured with cfgZero. -/
def clientZero : ClientState :=
  ClientState.mk0 { defaultOptions with reconnect := cfgZero }

/-- A signal emitted while handling one inbound frame. -/
inductive MsgEmit
  | validationError
  | perCode (c : ℚ)
  | dataEvt
deriving DecidableEq

/-- handleMessage() on an already-decoded frame at wall-clock time now:
normalize _id to id, validate the structure (a failure raises a
ValidationError that the surrounding catch turns into exactly one error
emission, leaving every other part of the client - in particular the
socket - untouched), drop duplicates silently, drop codes outside the
configured filter silently, and otherwise emit the per-code signal
followed by the generic data signal. -/
def ClientState.handleMessage (s : ClientState) (m : RawMessage) (now : ℤ) :
    List MsgEmit × ClientState :=
  let m1 := normalizeId m
  if isP2PQuakeEvent m1 = false then
    ([MsgEmit.validationError], s)
  else
    let r := s.dedup.isDuplicate (getStr m1.id) now
    let s1 := { s with dedup := r.2 }
    if r.1 = true then
      ([], s1)
    else if decide (getNum m1.code ∈ s.options.eventCodes) = false then
      ([], s1)
    else
      ([MsgEmit.perCode (getNum m1.code), MsgEmit.dataEvt], s1)

/-! ## Helper lemmas: ReconnectManager -/

/-- Cancelling the pending timer does not change shouldReconnect. -/
theorem shouldReconnect_cancel (m : ReconnectManager) :
    m.cancel.shouldReconnect = m.shouldReconnect :=
  rfl

/-- When attempts are exhausted, scheduleReconnect only cancels. -/
theorem scheduleReconnect_neg (m : ReconnectManager)
    (h : m.shouldReconnect = false) : m.scheduleReconnect = m.cancel := by
  have h' : m.cancel.shouldReconnect = false := h
  simp [ReconnectManager.scheduleReconnect, h']

/-- When attempts remain, scheduleReconnect increments the counter and
arms the timer with the delay of the incremented counter. -/
theorem scheduleReconnect_pos (m : ReconnectManager)
    (h : m.shouldReconnect = true) :
    m.scheduleReconnect =
      { m with
        attempts := m.attempts + 1
        timeout :=
          some (ReconnectManager.getNextDelay { m with attempts := m.attempts + 1 }) } := by
  have h' : m.cancel.shouldReconnect = true := h
  simp [ReconnectManager.scheduleReconnect, h']
  exact ⟨rfl, rfl, rfl⟩

/-- Claim C2: getNextDelay() returns min(initialDelay * multiplier^a,
maxDelay) for the current attempt count a, as a pure read that does not
mutate the counter; under the configuration validity conditions
0 ≤ initialDelay and 1 ≤ multiplier it is monotonically non-decreasing
in a; it never exceeds maxDelay; and with initialDelay 1000, multiplier
2, maxDelay 30000 the values for attempts 0..6 are 1000, 2000, 4000,
8000, 16000, 30000, 30000. -/
theorem getNextDelay_spec (m : ReconnectManager) (a b : ℕ)
    (h0 : 0 ≤ m.config.initialDelay) (h1 : 1 ≤ m.config.multiplier)
    (hab : a ≤ b) :
    m.getNextDelay
      = min (m.config.initialDelay * m.config.multiplier ^ m.attempts) m.config.maxDelay
    ∧ ReconnectManager.getNextDelay { m with attempts := a }
        ≤ ReconnectManager.getNextDelay { m with attempts := b }
    ∧ m.getNextDelay ≤ m.config.maxDelay
    ∧ (List.range 7).map
        (fun k => ReconnectManager.getNextDelay ⟨DEFAULT_RECONNECT_CONFIG, k, none⟩)
      = [1000, 2000, 4000, 8000, 16000, 30000, 30000] := by
  refine ⟨rfl, ?_, min_le_right _ _, ?_⟩
  · exact min_le_min
      (mul_le_mul_of_nonneg_left (pow_le_pow_right₀ h1 hab) h0) le_rfl
  · norm_num [List.range_succ, ReconnectManager.getNextDelay, DEFAULT_RECONNECT_CONFIG]

/-- Witness for C2 at the default configuration with attempts 2 and 5. -/
theorem getNextDelay_spec_witness :
    ((0 : ℚ) ≤ (ReconnectManager.mk0 DEFAULT_RECONNECT_CONFIG).config.initialDelay
      ∧ (1 : ℚ) ≤ (ReconnectManager.mk0 DEFAULT_RECONNECT_CONFIG).config.multiplier
      ∧ 2 ≤ 5)
    ∧ ((ReconnectManager.mk0 DEFAULT_RECONNECT_CONFIG).getNextDelay
        = min ((ReconnectManager.mk0 DEFAULT_RECONNECT_CONFIG).config.initialDelay
            * (ReconnectManager.mk0 DEFAULT_RECONNECT_CONFIG).config.multiplier
              ^ (ReconnectManager.mk0 DEFAULT_RECONNECT_CONFIG).attempts)
          (ReconnectManager.mk0 DEFAULT_RECONNECT_CONFIG).config.maxDelay
      ∧ ReconnectManager.getNextDelay
          { ReconnectManager.mk0 DEFAULT_RECONNECT_CONFIG with attempts := 2 }
        ≤ ReconnectManager.getNextDelay
          { ReconnectManager.mk0 DEFAULT_RECONNECT_CONFIG with attempts := 5 }
      ∧ (ReconnectManager.mk0 DEFAULT_RECONNECT_CONFIG).getNextDelay
        ≤ (ReconnectManager.mk0 DEFAULT_RECONNECT_CONFIG).config.maxDelay
      ∧ (List.range 7).map
          (fun k => ReconnectManager.getNextDelay ⟨DEFAULT_RECONNECT_CONFIG, k, none⟩)
        = [1000, 2000, 4000, 8000, 16000, 30000, 30000]) :=
  ⟨⟨by decide, by decide, by decide⟩,
    getNextDelay_spec (ReconnectManager.mk0 DEFAULT_RECONNECT_CONFIG) 2 5
      (by decide) (by decide) (by decide)⟩

/-- Claim C3: shouldReconnect() is true iff the current attempt counter
is strictly below maxAttempts; a maxAttempts of Infinity makes it always
true; with maxAttempts 5 it is true at attempt counts 0..4 and false at
5. -/
theorem shouldReconnect_spec (m : ReconnectManager) :
    (m.shouldReconnect = true
      ↔ ((m.attempts : ℚ) : WithTop ℚ) < m.config.maxAttempts)
    ∧ (m.config.maxAttempts = ⊤ → m.shouldReconnect = true)
    ∧ (∀ k : ℕ, k < 5 → ReconnectManager.shouldReconnect ⟨cfgFive, k, none⟩ = true)
    ∧ ReconnectManager.shouldReconnect ⟨cfgFive, 5, none⟩ = false := by
  refine ⟨by simp [ReconnectManager.shouldReconnect], fun h => ?_, fun k hk => ?_, ?_⟩
  · simp [ReconnectManager.shouldReconnect, h]
  · simp only [ReconnectManager.shouldReconnect, cfgFive, DEFAULT_RECONNECT_CONFIG,
      decide_eq_true_eq]
    exact_mod_cast hk
  · simp [ReconnectManager.shouldReconnect, cfgFive, DEFAULT_RECONNECT_CONFIG]

/-- Witness for C3: unlimited case at the default configuration, and the
maxAttempts-5 case at attempt count 0. -/
theorem shouldReconnect_spec_witness :
    ((ReconnectManager.mk0 DEFAULT_RECONNECT_CONFIG).config.maxAttempts = ⊤
      ∧ (ReconnectManager.mk0 DEFAULT_RECONNECT_CONFIG).shouldReconnect = true)
    ∧ (0 < 5 ∧ ReconnectManager.shouldReconnect ⟨cfgFive, 0, none⟩ = true) :=
  ⟨⟨rfl, (shouldReconnect_spec (ReconnectManager.mk0 DEFAULT_RECONNECT_CONFIG)).2.1 rfl⟩,
    ⟨by decide,
      (shouldReconnect_spec (ReconnectManager.mk0 DEFAULT_RECONNECT_CONFIG)).2.2.1 0
        (by decide)⟩⟩

/-- Claim C4: scheduleReconnect(callback) first cancels any pending
timer (its result is that of scheduling from the cancelled state); when
shouldReconnect() is false it returns after the cancellation with the
attempt counter unchanged and nothing scheduled; otherwise it increments
the attempt counter exactly once and arms the one-shot timer with the
delay computed for the now-incremented attempt count. -/
theorem scheduleReconnect_spec (m : ReconnectManager) :
    m.scheduleReconnect = m.cancel.scheduleReconnect
    ∧ (m.shouldReconnect = false →
        m.scheduleReconnect.attempts = m.attempts
        ∧ m.scheduleReconnect.timeout = none)
    ∧ (m.shouldReconnect = true →
        m.scheduleReconnect.attempts = m.attempts + 1
        ∧ m.scheduleReconnect.timeout
          = some (ReconnectManager.getNextDelay { m with attempts := m.attempts + 1 })
        ∧ m.scheduleReconnect.config = m.config) := by
  refine ⟨rfl, fun h => ?_, fun h => ?_⟩
  · rw [scheduleReconnect_neg m h]
    exact ⟨rfl, rfl⟩
  · rw [scheduleReconnect_pos m h]
    exact ⟨rfl, rfl, rfl⟩

/-- Witness for C4: both branches at concrete managers (the default
configuration, and maxAttempts 5 with the counter exhausted). -/
theorem scheduleReconnect_spec_witness :
    ((ReconnectManager.mk0 DEFAULT_RECONNECT_CONFIG).shouldReconnect = true
      ∧ (ReconnectManager.mk0 DEFAULT_RECONNECT_CONFIG).scheduleReconnect.attempts = 0 + 1
      ∧ (ReconnectManager.mk0 DEFAULT_RECONNECT_CONFIG).scheduleReconnect.timeout
        = some (ReconnectManager.getNextDelay
            { ReconnectManager.mk0 DEFAULT_RECONNECT_CONFIG with attempts := 0 + 1 })
      ∧ (ReconnectManager.mk0 DEFAULT_RECONNECT_CONFIG).scheduleReconnect.config
        = (ReconnectManager.mk0 DEFAULT_RECONNECT_CONFIG).config)
    ∧ (ReconnectManager.shouldReconnect ⟨cfgFive, 5, some 1000⟩ = false
      ∧ (ReconnectManager.scheduleReconnect ⟨cfgFive, 5, some 1000⟩).attempts = 5
      ∧ (ReconnectManager.scheduleReconnect ⟨cfgFive, 5, some 1000⟩).timeout = none) :=
  ⟨⟨by decide, (scheduleReconnect_spec (ReconnectManager.mk0 DEFAULT_RECONNECT_CONFIG)).2.2
      (by decide)⟩,
    ⟨by decide, (scheduleReconnect_spec ⟨cfgFive, 5, some 1000⟩).2.1 (by decide)⟩⟩

/-! ## Helper lemmas: Deduplicator -/

/-- isDuplicate on an id with no entry records now and reports false. -/
theorem isDuplicate_none (d : Deduplicator) (id : String) (now : ℤ)
    (h : d.seenIds id = none) :
    d.isDuplicate id now
      = (false, { d with seenIds := Function.update d.seenIds id (some now) }) := by
  unfold Deduplicator.isDuplicate
  rw [h]

/-- isDuplicate on a still-valid entry reports true, all state
untouched. -/
theorem isDuplicate_within (d : Deduplicator) (id : String) (now t : ℤ)
    (h : d.seenIds id = some t) (hw : now - t < d.windowMs) :
    d.isDuplicate id now = (true, d) := by
  unfold Deduplicator.isDuplicate
  rw [h]
  simp [hw]

/-- isDuplicate on an expired entry re-records now and reports false. -/
theorem isDuplicate_expired (d : Deduplicator) (id : String) (now t : ℤ)
    (h : d.seenIds id = some t) (hw : ¬ now - t < d.windowMs) :
    d.isDuplicate id now
      = (false, { d with seenIds := Function.update d.seenIds id (some now) }) := by
  unfold Deduplicator.isDuplicate
  rw [h]
  simp [hw]

/-- A true isDuplicate result leaves the store unchanged. -/
theorem isDuplicate_true_state (d : Deduplicator) (id : String) (now : ℤ)
    (h : (d.isDuplicate id now).1 = true) : (d.isDuplicate id now).2 = d := by
  cases hs : d.seenIds id with
  | none => rw [isDuplicate_none d id now hs] at h; simp at h
  | some t =>
    by_cases hw : now - t < d.windowMs
    · rw [isDuplicate_within d id now t hs hw]
    · rw [isDuplicate_expired d id now t hs hw] at h; simp at h

/-- A false isDuplicate result records now against the id. -/
theorem isDuplicate_false_seen (d : Deduplicator) (id : String) (now : ℤ)
    (h : (d.isDuplicate id now).1 = false) :
    (d.isDuplicate id now).2.seenIds id = some now := by
  cases hs : d.seenIds id with
  | none => rw [isDuplicate_none d id now hs]; simp
  | some t =>
    by_cases hw : now - t < d.windowMs
    · rw [isDuplicate_within d id now t hs hw] at h; simp at h
    · rw [isDuplicate_expired d id now t hs hw]; simp

/-- isDuplicate never touches the entry of a different id. -/
theorem isDuplicate_seen_other (d : Deduplicator) (id : String) (now : ℤ)
    (j : String) (hj : j ≠ id) :
    (d.isDuplicate id now).2.seenIds j = d.seenIds j := by
  cases hs : d.seenIds id with
  | none => rw [isDuplicate_none d id now hs]; simp [Function.update_noteq hj]
  | some t =>
    by_cases hw : now - t < d.windowMs
    · rw [isDuplicate_within d id now t hs hw]
    · rw [isDuplicate_expired d id now t hs hw]; simp [Function.update_noteq hj]

/-- isDuplicate preserves the window size. -/
theorem isDuplicate_windowMs (d : Deduplicator) (id : String) (now : ℤ) :
    (d.isDuplicate id now).2.windowMs = d.windowMs := by
  cases hs : d.seenIds id with
  | none => rw [isDuplicate_none d id now hs]
  | some t =>
    by_cases hw : now - t < d.windowMs
    · rw [isDuplicate_within d id now t hs hw]
    · rw [isDuplicate_expired d id now t hs hw]

/-- Running a sequence of calls preserves the window size. -/
theorem runCalls_windowMs (cs : List (String × ℤ)) (d : Deduplicator) :
    (d.runCalls cs).2.windowMs = d.windowMs := by
  induction cs generalizing d with
  | nil => rfl
  | cons c rest ih =>
    simp only [Deduplicator.runCalls]
    rw [ih, isDuplicate_windowMs]

/-- lastFalseTime on a cons, written through Option.elim. -/
theorem lastFalseTime_cons (e : (String × ℤ) × Bool)
    (L : List ((String × ℤ) × Bool)) (id : String) :
    lastFalseTime (e :: L) id
      = (lastFalseTime L id).elim
          (if e.1.1 = id ∧ e.2 = false then some e.1.2 else none) some := by
  cases h : lastFalseTime L id <;> simp [lastFalseTime, h]

/-- When no call in the history is for this id, it has no last
false-returning call. -/
theorem lastFalseTime_not_called (cs : List (String × ℤ)) (rs : List Bool)
    (id : String) (h : ∀ c ∈ cs, c.1 ≠ id) :
    lastFalseTime (cs.zip rs) id = none := by
  induction cs generalizing rs with
  | nil => rfl
  | cons c rest ih =>
    cases rs with
    | nil => rfl
    | cons r rrest =>
      rw [List.zip_cons_cons, lastFalseTime_cons,
        ih rrest (fun x hx => h x (List.mem_cons_of_mem c hx))]
      simp [h c (List.mem_cons_self c rest)]

/-- The store invariant: after a run of calls, the stored timestamp of an
id is the time of the call that most recently returned false for it,
falling back to the initial entry when no call for the id returned
false. -/
theorem runCalls_seenIds (cs : List (String × ℤ)) (d : Deduplicator) (id : String) :
    (d.runCalls cs).2.seenIds id
      = (lastFalseTime (cs.zip (d.runCalls cs).1) id).elim (d.seenIds id) some := by
  induction cs generalizing d with
  | nil => rfl
  | cons c rest ih =>
    simp only [Deduplicator.runCalls, List.zip_cons_cons, lastFalseTime_cons]
    rw [ih]
    cases hL : lastFalseTime (rest.zip ((d.isDuplicate c.1 c.2).2.runCalls rest).1) id with
    | some t => simp
    | none =>
      simp only [Option.elim_none]
      by_cases hc : c.1 = id
      · cases hr : (d.isDuplicate c.1 c.2).1 with
        | false =>
          rw [if_pos ⟨hc, rfl⟩, Option.elim_some]
          rw [← hc]
          exact isDuplicate_false_seen d c.1 c.2 hr
        | true =>
          rw [if_neg (by simp [hr]), Option.elim_none,
            isDuplicate_true_state d c.1 c.2 hr]
      · rw [if_neg (by simp [hc]), Option.elim_none,
          isDuplicate_seen_other d c.1 c.2 id (fun he => hc he.symm)]

/-- From an empty initial entry, a history containing a call for the id
contains a call for it that returned false. -/
theorem lastFalseTime_called (cs : List (String × ℤ)) (d : Deduplicator)
    (id : String) (hnone : d.seenIds id = none) (hcall : ∃ c ∈ cs, c.1 = id) :
    ∃ t, lastFalseTime (cs.zip (d.runCalls cs).1) id = some t := by
  induction cs generalizing d with
  | nil => simp at hcall
  | cons c rest ih =>
    simp only [Deduplicator.runCalls, List.zip_cons_cons, lastFalseTime_cons]
    by_cases hc : c.1 = id
    · have hr : d.isDuplicate c.1 c.2
          = (false, { d with seenIds := Function.update d.seenIds c.1 (some c.2) }) :=
        isDuplicate_none d c.1 c.2 (hc ▸ hnone)
      rw [hr]
      cases hL : lastFalseTime
          (rest.zip (Deduplicator.runCalls
            { d with seenIds := Function.update d.seenIds c.1 (some c.2) } rest).1) id with
      | some t => exact ⟨t, by simp⟩
      | none => exact ⟨c.2, by simp [hc]⟩
    · rcases hcall with ⟨x, hx, hxid⟩
      rcases List.mem_cons.mp hx with hx0 | hxr
      · exact absurd (hx0 ▸ hxid) hc
      · have hnone2 : (d.isDuplicate c.1 c.2).2.seenIds id = none := by
          rw [isDuplicate_seen_other d c.1 c.2 id (fun he => hc he.symm)]
          exact hnone
        rcases ih (d.isDuplicate c.1 c.2).2 hnone2 ⟨x, hxr, hxid⟩ with ⟨t, ht⟩
        exact ⟨t, by simp [ht]⟩

/-- Claim C1: starting from a fresh store with window w, after any
sequence of isDuplicate calls: a first call for an id reports false and
records its time; a later call for the id reports true exactly when it
occurs strictly within w of the call that most recently returned false
for that id; a true result leaves the store unchanged (sliding dedup,
not refreshing); and a false result records the current time against
the id. -/
theorem isDuplicate_window_spec (w : ℤ) (cs : List (String × ℤ))
    (id : String) (now : ℤ) :
    ((∀ c ∈ cs, c.1 ≠ id) →
        (((Deduplicator.mk0 w).runCalls cs).2.isDuplicate id now).1 = false
        ∧ (((Deduplicator.mk0 w).runCalls cs).2.isDuplicate id now).2.seenIds id
          = some now)
    ∧ ((∃ c ∈ cs, c.1 = id) →
        ((((Deduplicator.mk0 w).runCalls cs).2.isDuplicate id now).1 = true
          ↔ ∃ t, lastFalseTime (cs.zip ((Deduplicator.mk0 w).runCalls cs).1) id
                = some t
              ∧ now - t < w))
    ∧ ((((Deduplicator.mk0 w).runCalls cs).2.isDuplicate id now).1 = true →
        (((Deduplicator.mk0 w).runCalls cs).2.isDuplicate id now).2
          = ((Deduplicator.mk0 w).runCalls cs).2)
    ∧ ((((Deduplicator.mk0 w).runCalls cs).2.isDuplicate id now).1 = false →
        (((Deduplicator.mk0 w).runCalls cs).2.isDuplicate id now).2.seenIds id
          = some now) := by
  have hwin : (((Deduplicator.mk0 w).runCalls cs)).2.windowMs = w :=
    runCalls_windowMs cs (Deduplicator.mk0 w)
  have hseen : ((Deduplicator.mk0 w).runCalls cs).2.seenIds id
      = lastFalseTime (cs.zip ((Deduplicator.mk0 w).runCalls cs).1) id := by
    rw [runCalls_seenIds]
    cases lastFalseTime (cs.zip ((Deduplicator.mk0 w).runCalls cs).1) id <;> rfl
  refine ⟨fun h => ?_, fun hcall => ?_, ?_, ?_⟩
  · have h0 : ((Deduplicator.mk0 w).runCalls cs).2.seenIds id = none := by
      rw [hseen, lastFalseTime_not_called cs _ id h]
    rw [isDuplicate_none _ id now h0]
    exact ⟨rfl, by simp⟩
  · rcases lastFalseTime_called cs (Deduplicator.mk0 w) id rfl hcall with ⟨t, ht⟩
    have hst : ((Deduplicator.mk0 w).runCalls cs).2.seenIds id = some t := by
      rw [hseen, ht]
    constructor
    · intro htrue
      refine ⟨t, ht, ?_⟩
      by_contra hw
      rw [isDuplicate_expired _ id now t hst (by rw [hwin]; exact hw)] at htrue
      simp at htrue
    · rintro ⟨t', ht', hw⟩
      have htt : t' = t := by
        rw [ht] at ht'
        exact (Option.some_inj.mp ht').symm
      subst htt
      rw [isDuplicate_within _ id now t' hst (by rw [hwin]; exact hw)]
  · exact isDuplicate_true_state _ id now
  · exact isDuplicate_false_seen _ id now

/-- Witness for C1 on the trace a@0 with a second call a@5 and window
10: the second call is a duplicate exactly because it falls within 10ms
of the first (false-returning) call. -/
theorem isDuplicate_window_spec_witness :
    (∃ c ∈ [(("a" : String), (0 : ℤ))], c.1 = "a")
    ∧ ((((Deduplicator.mk0 10).runCalls [("a", 0)]).2.isDuplicate "a" 5).1 = true
        ↔ ∃ t, lastFalseTime
              ([(("a" : String), (0 : ℤ))].zip
                ((Deduplicator.mk0 10).runCalls [("a", 0)]).1) "a" = some t
            ∧ 5 - t < 10) :=
  ⟨⟨("a", 0), by simp, rfl⟩,
    (isDuplicate_window_spec 10 [("a", 0)] "a" 5).2.1 ⟨("a", 0), by simp, rfl⟩⟩

/-- Claim C9: Deduplicator.destroy() stops the sweep timer and removes
every entry; the destroyed store has the entry map of a newly
constructed store, and the first isDuplicate query for any id after
destruction reports false and records the query time. -/
theorem deduplicator_destroy_spec (d : Deduplicator) (id : String) (now : ℤ) :
    d.destroy.cleanupActive = false
    ∧ d.destroy.windowMs = d.windowMs
    ∧ (∀ i, d.destroy.seenIds i = none)
    ∧ d.destroy.seenIds = (Deduplicator.mk0 d.windowMs).seenIds
    ∧ (d.destroy.isDuplicate id now).1 = false
    ∧ (d.destroy.isDuplicate id now).2.seenIds id = some now := by
  refine ⟨rfl, rfl, fun _ => rfl, rfl, ?_, ?_⟩
  · rw [isDuplicate_none d.destroy id now rfl]
  · rw [isDuplicate_none d.destroy id now rfl]
    simp

/-! ## Helper lemmas: client lifecycle -/

/-- When no connect is pending, a transport notification settles
nothing and registers no listeners. -/
theorem notify_no_pending (s : ClientState) (n : ConnNotice)
    (h : s.pendingConnect = false) :
    (s.notify n).1 = none ∧ (s.notify n).2.pendingConnect = false := by
  cases n <;>
    simp [ClientState.notify, ClientState.handleOpen, ClientState.handleError,
      ClientState.fireOnce, h]

/-- When no connect is pending, a whole sequence of transport
notifications settles nothing. -/
theorem runNotices_no_pending (ns : List ConnNotice) (s : ClientState)
    (h : s.pendingConnect = false) :
    (ClientState.runNotices s ns).1 = [] := by
  induction ns generalizing s with
  | nil => rfl
  | cons n rest ih =>
    have hn := notify_no_pending s n h
    simp only [ClientState.runNotices]
    rw [hn.1, ih (s.notify n).2 hn.2]
    rfl

/-- When a connect is pending, a transport notification settles it (open
resolves, error rejects), deregisters the one-shot listeners and clears
the connecting flag. -/
theorem notify_pending (s : ClientState) (n : ConnNotice)
    (h : s.pendingConnect = true) :
    (s.notify n).1
      = some (match n with
              | ConnNotice.openNotice => Settle.resolved
              | ConnNotice.errorNotice => Settle.rejected)
    ∧ (s.notify n).2.pendingConnect = false
    ∧ (s.notify n).2.isConnecting = false := by
  cases n <;>
    simp [ClientState.notify, ClientState.handleOpen, ClientState.handleError,
      ClientState.fireOnce, h]

/-! ## The claims about the client -/

/-- Claim C5: an inbound frame whose decoded record, after the legacy-id
normalization step, lacks a string id, a numeric code or a string time,
or whose code lies outside the enumerated set, produces exactly one
validation-error emission, reaches no per-code listener and no generic
data listener, and leaves the client state - in particular the
connection - untouched. -/
theorem handleMessage_invalid_spec (s : ClientState) (m : RawMessage) (now : ℤ)
    (h : isStringField (normalizeId m).id = false
       ∨ isNumberField (normalizeId m).code = false
       ∨ isStringField (normalizeId m).time = false
       ∨ isValidEventCode (normalizeId m).code = false) :
    (s.handleMessage m now).1 = [MsgEmit.validationError]
    ∧ (∀ c, MsgEmit.perCode c ∉ (s.handleMessage m now).1)
    ∧ MsgEmit.dataEvt ∉ (s.handleMessage m now).1
    ∧ (s.handleMessage m now).2 = s := by
  have hv : isP2PQuakeEvent (normalizeId m) = false := by
    unfold isP2PQuakeEvent isBasicData
    rcases h with h | h | h | h <;> simp [h]
  refine ⟨?_, ?_, ?_, ?_⟩ <;>
    simp [ClientState.handleMessage, hv]

/-- Witness for C5: a frame with code 551 and a string time but no id at
all is rejected with a single validation error and no dispatch. -/
theorem handleMessage_invalid_spec_witness :
    isStringField
      (normalizeId ⟨none, none, some (JVal.jnum 551), some (JVal.jstr "t")⟩).id = false
    ∧ ((ClientState.handleMessage initialClient
          ⟨none, none, some (JVal.jnum 551), some (JVal.jstr "t")⟩ 0).1
        = [MsgEmit.validationError]
      ∧ (∀ c, MsgEmit.perCode c ∉
          (ClientState.handleMessage initialClient
            ⟨none, none, some (JVal.jnum 551), some (JVal.jstr "t")⟩ 0).1)
      ∧ MsgEmit.dataEvt ∉
          (ClientState.handleMessage initialClient
            ⟨none, none, some (JVal.jnum 551), some (JVal.jstr "t")⟩ 0).1
      ∧ (ClientState.handleMessage initialClient
          ⟨none, none, some (JVal.jnum 551), some (JVal.jstr "t")⟩ 0).2
        = initialClient) :=
  ⟨rfl,
    handleMessage_invalid_spec initialClient
      ⟨none, none, some (JVal.jnum 551), some (JVal.jstr "t")⟩ 0 (Or.inl rfl)⟩

/-- Claim C6: connect() on an already-open client resolves immediately
without starting another transport attempt; connect() while a connect is
in flight rejects with the connection-already-in-progress error without
starting another attempt; otherwise it starts exactly one transport
attempt whose outcome is settled exactly once, by the first open or
error notification, after which the one-shot listeners are
deregistered. -/
theorem connect_spec (s : ClientState) (n : ConnNotice) (ns : List ConnNotice) :
    (s.isConnected = true → s.connect = (ConnectStart.resolvedImmediately, s))
    ∧ (s.isConnected = false → s.isConnecting = true →
        s.connect = (ConnectStart.rejectedInProgress, s))
    ∧ (s.isConnected = false → s.isConnecting = false →
        s.connect.1 = ConnectStart.attemptStarted
        ∧ s.connect.2.attemptsStarted = s.attemptsStarted + 1
        ∧ (ClientState.runNotices s.connect.2 (n :: ns)).1
            = [match n with
               | ConnNotice.openNotice => Settle.resolved
               | ConnNotice.errorNotice => Settle.rejected]
        ∧ (s.connect.2.notify n).2.pendingConnect = false
        ∧ (s.connect.2.notify n).2.isConnecting = false) := by
  refine ⟨fun h => ?_, fun h h2 => ?_, fun h h2 => ?_⟩
  · simp [ClientState.connect, h]
  · simp [ClientState.connect, h, h2]
  · have hc : s.connect
        = (ConnectStart.attemptStarted,
          { s with
            isConnecting := true
            intentionalDisconnect := false
            ws := some false
            pendingConnect := true
            attemptsStarted := s.attemptsStarted + 1 }) := by
      simp [ClientState.connect, h, h2]
    have hp : s.connect.2.pendingConnect = true := by rw [hc]
    have hfire := notify_pending s.connect.2 n hp
    refine ⟨by rw [hc], by rw [hc], ?_, hfire.2.1, hfire.2.2⟩
    simp only [ClientState.runNotices]
    rw [hfire.1, runNotices_no_pending ns _ hfire.2.1]
    rfl

/-- Witness for C6: a fresh client starts an attempt that the first open
notification resolves, exactly once. -/
theorem connect_spec_witness :
    initialClient.isConnected = false
    ∧ initialClient.isConnecting = false
    ∧ (initialClient.connect.1 = ConnectStart.attemptStarted
      ∧ initialClient.connect.2.attemptsStarted = initialClient.attemptsStarted + 1
      ∧ (ClientState.runNotices initialClient.connect.2 [ConnNotice.openNotice]).1
          = [Settle.resolved]
      ∧ (initialClient.connect.2.notify ConnNotice.openNotice).2.pendingConnect = false
      ∧ (initialClient.connect.2.notify ConnNotice.openNotice).2.isConnecting = false) :=
  ⟨rfl, rfl,
    (connect_spec initialClient ConnNotice.openNotice []).2.2 rfl rfl⟩

/-- Claim C7: once the user-requested flag is set the reconnect timer
callback is a no-op - it starts no connect attempt and changes no state -
and both disconnect() and destroy() set that flag, so a timer firing
after either call does nothing; the guarantee comes from the flag check
inside the scheduled callback itself, not from timer cancellation. -/
theorem reconnect_flag_guard_spec (s : ClientState) :
    (s.intentionalDisconnect = true → s.reconnectTimerCallback = (none, s))
    ∧ (s.disconnect.intentionalDisconnect = true
      ∧ ClientState.reconnectTimerCallback s.disconnect = (none, s.disconnect))
    ∧ (s.destroy.intentionalDisconnect = true
      ∧ ClientState.reconnectTimerCallback s.destroy = (none, s.destroy)) := by
  refine ⟨fun h => ?_, ⟨rfl, rfl⟩, ⟨rfl, rfl⟩⟩
  simp [ClientState.reconnectTimerCallback, h]

/-- Witness for C7: the flag check alone suppresses the callback on a
concrete client whose flag is set while a timer is still armed. -/
theorem reconnect_flag_guard_spec_witness :
    { initialClient with
      intentionalDisconnect := true
      rm := { initialClient.rm with timeout := some 1000 } }.intentionalDisconnect = true
    ∧ ClientState.reconnectTimerCallback
        { initialClient with
          intentionalDisconnect := true
          rm := { initialClient.rm with timeout := some 1000 } }
      = (none,
        { initialClient with
          intentionalDisconnect := true
          rm := { initialClient.rm with timeout := some 1000 } }) :=
  ⟨rfl,
    (reconnect_flag_guard_spec
      { initialClient with
        intentionalDisconnect := true
        rm := { initialClient.rm with timeout := some 1000 } }).1 rfl⟩

/-- Counterexample to claim C8 as stated: destroy() leaves no terminal
state behind - a subsequent explicit connect() on the destroyed client
starts a fresh transport attempt and moves the client into Connecting. -/
theorem destroy_not_terminal_cex :
    (ClientState.connect
        (ClientState.destroy { initialClient with ws := some true })).1
      = ConnectStart.attemptStarted
    ∧ (ClientState.connect
        (ClientState.destroy { initialClient with ws := some true })).2.isConnecting
      = true
    ∧ (ClientState.connect
        (ClientState.destroy { initialClient with ws := some true })).2.ws
      = some false :=
  ⟨rfl, rfl, rfl⟩

/-- Claim C8 (amended): after destroy() the client is disconnected - not
Open, no reconnect timer pending - and no timer-driven operation
transitions it anywhere (the reconnect callback is a no-op); but the
state is not terminal against explicit calls: when no connect was in
flight, a subsequent connect() starts a new attempt and moves the
client into Connecting. -/
theorem destroy_state_spec (s : ClientState) :
    ClientState.reconnectTimerCallback s.destroy = (none, s.destroy)
    ∧ s.destroy.isConnected = false
    ∧ s.destroy.rm.timeout = none
    ∧ (s.destroy.isConnecting = false →
        (ClientState.connect s.destroy).1 = ConnectStart.attemptStarted
        ∧ (ClientState.connect s.destroy).2.isConnecting = true) := by
  refine ⟨rfl, rfl, rfl, fun h => ?_⟩
  have hnc : s.destroy.isConnected = false := rfl
  constructor <;> simp [ClientState.connect, hnc, h]

/-- Witness for C8 (amended) on a concrete connected client. -/
theorem destroy_state_spec_witness :
    (ClientState.destroy { initialClient with ws := some true }).isConnecting = false
    ∧ (ClientState.connect
        (ClientState.destroy { initialClient with ws := some true })).1
      = ConnectStart.attemptStarted
    ∧ (ClientState.connect
        (ClientState.destroy { initialClient with ws := some true })).2.isConnecting
      = true :=
  ⟨rfl, (destroy_state_spec { initialClient with ws := some true }).2.2.2 rfl⟩

/-- Counterexample to claim C10 as stated: with the degenerate but
accepted configuration initialDelay 0, multiplier 2, maxDelay 30000, the
claim's premises hold (multiplier exceeds 1 and the post-increment delay
0 is below maxDelay) yet the delay reported to reconnecting listeners
equals the delay actually waited (both 0), so it is not strictly
smaller. -/
theorem attemptReconnect_delay_cex :
    (1 : ℚ) < cfgZero.multiplier
    ∧ ReconnectManager.getNextDelay ⟨cfgZero, 1, none⟩ < cfgZero.maxDelay
    ∧ clientZero.attemptReconnect.1
        = [RcEmit.reconnecting 1 (ReconnectManager.getNextDelay ⟨cfgZero, 0, none⟩)]
    ∧ clientZero.attemptReconnect.2.rm.timeout
        = some (ReconnectManager.getNextDelay ⟨cfgZero, 1, none⟩)
    ∧ ReconnectManager.getNextDelay ⟨cfgZero, 0, none⟩ = 0
    ∧ ReconnectManager.getNextDelay ⟨cfgZero, 1, none⟩ = 0
    ∧ ¬ ReconnectManager.getNextDelay ⟨cfgZero, 0, none⟩
        < ReconnectManager.getNextDelay ⟨cfgZero, 1, none⟩ := by
  have h0 : ReconnectManager.getNextDelay ⟨cfgZero, 0, none⟩ = 0 := by
    norm_num [ReconnectManager.getNextDelay, cfgZero]
  have h1 : ReconnectManager.getNextDelay ⟨cfgZero, 1, none⟩ = 0 := by
    norm_num [ReconnectManager.getNextDelay, cfgZero]
  have hs : clientZero.rm.shouldReconnect = true := by decide
  have hsched := scheduleReconnect_pos clientZero.rm hs
  refine ⟨by norm_num [cfgZero], by rw [h1]; norm_num [cfgZero], ?_, ?_, h0, h1, ?_⟩
  · simp [ClientState.attemptReconnect, hs, ReconnectManager.attemptCount]
    exact ⟨rfl, rfl⟩
  · simp [ClientState.attemptReconnect, hs]
    rw [hsched]
    rfl
  · rw [h0, h1]
    exact lt_irrefl 0

/-- Claim C10 (amended): on every reconnect triggered while attempts
remain, the delayMs argument of the reconnecting emission is computed
from the attempt counter before scheduleReconnect increments it, while
the armed timer waits the delay of the incremented counter; hence
whenever multiplier > 1, initialDelay > 0 and the post-increment delay
is below maxDelay, the reported delay is strictly smaller than the delay
actually waited. -/
theorem attemptReconnect_delay_spec (s : ClientState)
    (hmul : 1 < s.rm.config.multiplier)
    (hinit : 0 < s.rm.config.initialDelay)
    (hs : s.rm.shouldReconnect = true)
    (hbound : ReconnectManager.getNextDelay { s.rm with attempts := s.rm.attempts + 1 }
        < s.rm.config.maxDelay) :
    s.attemptReconnect.1
      = [RcEmit.reconnecting (s.rm.attempts + 1) s.rm.getNextDelay]
    ∧ s.attemptReconnect.2.rm.timeout
      = some (ReconnectManager.getNextDelay { s.rm with attempts := s.rm.attempts + 1 })
    ∧ s.rm.getNextDelay
      < ReconnectManager.getNextDelay { s.rm with attempts := s.rm.attempts + 1 } := by
  have hsched := scheduleReconnect_pos s.rm hs
  have hexp : s.rm.config.initialDelay * s.rm.config.multiplier ^ (s.rm.attempts + 1)
      < s.rm.config.maxDelay := by
    rcases min_lt_iff.mp hbound with hlt | hlt
    · exact hlt
    · exact absurd hlt (lt_irrefl _)
  have hpow : s.rm.config.initialDelay * s.rm.config.multiplier ^ s.rm.attempts
      < s.rm.config.initialDelay * s.rm.config.multiplier ^ (s.rm.attempts + 1) :=
    (mul_lt_mul_left hinit).mpr
      (pow_lt_pow_right₀ hmul (Nat.lt_succ_self s.rm.attempts))
  have hlow : ReconnectManager.getNextDelay s.rm
      = s.rm.config.initialDelay * s.rm.config.multiplier ^ s.rm.attempts :=
    min_eq_left (le_of_lt (hpow.trans hexp))
  have hhigh : ReconnectManager.getNextDelay { s.rm with attempts := s.rm.attempts + 1 }
      = s.rm.config.initialDelay * s.rm.config.multiplier ^ (s.rm.attempts + 1) :=
    min_eq_left (le_of_lt hexp)
  refine ⟨?_, ?_, ?_⟩
  · simp [ClientState.attemptReconnect, hs, ReconnectManager.attemptCount]
  · simp [ClientState.attemptReconnect, hs]
    rw [hsched]
  · rw [hlow, hhigh]
    exact hpow

/-- At the default configuration the post-increment delay from attempt
count 0 is 2000ms, below maxDelay. -/
theorem delay_bound_default :
    ReconnectManager.getNextDelay
        { initialClient.rm with attempts := initialClient.rm.attempts + 1 }
      < initialClient.rm.config.maxDelay := by
  norm_num [ReconnectManager.getNextDelay, initialClient, ClientState.mk0,
    ReconnectManager.mk0, defaultOptions, DEFAULT_RECONNECT_CONFIG]

/-- Witness for C10 (amended) at the default configuration from attempt
count 0: the reconnecting emission reports 1000ms while the armed timer
waits 2000ms. -/
theorem attemptReconnect_delay_spec_witness :
    ((1 : ℚ) < initialClient.rm.config.multiplier
      ∧ (0 : ℚ) < initialClient.rm.config.initialDelay
      ∧ initialClient.rm.shouldReconnect = true
      ∧ ReconnectManager.getNextDelay
          { initialClient.rm with attempts := initialClient.rm.attempts + 1 }
        < initialClient.rm.config.maxDelay)
    ∧ (initialClient.attemptReconnect.1
        = [RcEmit.reconnecting (initialClient.rm.attempts + 1)
            initialClient.rm.getNextDelay]
      ∧ initialClient.attemptReconnect.2.rm.timeout
        = some (ReconnectManager.getNextDelay
            { initialClient.rm with attempts := initialClient.rm.attempts + 1 })
      ∧ initialClient.rm.getNextDelay
        < ReconnectManager.getNextDelay
            { initialClient.rm with attempts := initialClient.rm.attempts + 1 }) :=
  ⟨⟨by decide, by decide, by decide, delay_bound_default⟩,
    attemptReconnect_delay_spec initialClient
      (by decide) (by decide) (by decide) delay_bound_default⟩

end P2PQuake
